import Mathlib

/-!
Shallow embedding of the IronLicensing Rust SDK (src/types.rs, src/error.rs,
src/config.rs, src/transport.rs, src/client.rs).

Modelling conventions:
* `serde_json::Value` payloads (metadata maps) are never inspected by the SDK;
  they are modelled as their serialized text (`JsonValue := String`).
* The HTTP collaborator is external: each transport operation is embedded as a
  pure function of the HTTP outcome (transport error, or a response with a
  2xx-or-not flag and a body).  JSON (de)serialization by `serde_json` is
  likewise external and is passed in as a parse function argument.
* The filesystem used by the machine-identity code is embedded as an explicit
  `Option String` (the readable contents of the identity file, if any) plus the
  freshly generated UUID string, both inputs to the pure function.
* `parking_lot::RwLock` reads/writes of a single field are atomic; the
  whole-call semantics is given by `LicenseClient.step`/`run`, and the
  finer interleaving granularity of the two independent locks is given by the
  `MicroWrite` micro-step semantics below.
-/

namespace IronLicensing

/-- `serde_json::Value` is opaque to the SDK (never inspected, only carried);
modelled as its serialized text. -/
abbrev JsonValue := String

/-- `HashMap<String, serde_json::Value>`, opaque to the SDK. -/
abbrev MetadataMap := List (String × JsonValue)

/-- src/types.rs `LicenseStatus`. -/
inductive LicenseStatus where
  | valid
  | expired
  | suspended
  | revoked
  | invalid
  | trial
  | trialExpired
  | notActivated
  | unknown
  deriving DecidableEq, Repr

/-- src/types.rs `impl Default for LicenseStatus`. -/
def LicenseStatus.default : LicenseStatus := .notActivated

/-- src/types.rs `LicenseType`. -/
inductive LicenseType where
  | perpetual
  | subscription
  | trial
  deriving DecidableEq, Repr

/-- src/types.rs `impl Default for LicenseType`. -/
def LicenseType.default : LicenseType := .perpetual

/-- src/types.rs `Feature`. -/
structure Feature where
  key : String
  name : String
  enabled : Bool
  description : Option String
  metadata : Option MetadataMap
  deriving DecidableEq, Repr

/-- src/types.rs `License`.  `max_activations`/`current_activations` are Rust
`i32`; they are never used arithmetically by the SDK, so `Int` is faithful. -/
structure License where
  id : String
  key : String
  status : LicenseStatus
  license_type : LicenseType
  email : Option String
  name : Option String
  company : Option String
  features : List Feature
  max_activations : Int
  current_activations : Int
  expires_at : Option String
  created_at : Option String
  last_validated_at : Option String
  metadata : Option MetadataMap
  deriving DecidableEq, Repr

/-- src/types.rs `License::has_feature`. -/
def License.has_feature (l : License) (feature_key : String) : Bool :=
  l.features.any (fun f => f.key == feature_key && f.enabled)

/-- src/types.rs `License::get_feature`. -/
def License.get_feature (l : License) (feature_key : String) : Option Feature :=
  l.features.find? (fun f => f.key == feature_key)

/-- src/types.rs `Activation`. -/
structure Activation where
  id : String
  machine_id : String
  machine_name : Option String
  platform : Option String
  activated_at : Option String
  last_seen_at : Option String
  deriving DecidableEq, Repr

/-- src/types.rs `LicenseResult`. -/
structure LicenseResult where
  valid : Bool
  license : Option License
  activations : Option (List Activation)
  error : Option String
  cached : Bool
  deriving DecidableEq, Repr

/-- src/types.rs `LicenseResult::success`. -/
def LicenseResult.success (license : License) : LicenseResult :=
  { valid := true
    license := some license
    activations := none
    error := none
    cached := false }

/-- src/types.rs `LicenseResult::failure`. -/
def LicenseResult.failure (error : String) : LicenseResult :=
  { valid := false
    license := none
    activations := none
    error := some error
    cached := false }

/-- src/types.rs `CheckoutResult`. -/
structure CheckoutResult where
  success : Bool
  checkout_url : Option String
  session_id : Option String
  error : Option String
  deriving DecidableEq, Repr

/-- src/types.rs `CheckoutResult::success` (named `mkSuccess` here because the
field projection `CheckoutResult.success` takes the Rust method's name). -/
def CheckoutResult.mkSuccess (checkout_url : String) (session_id : String) :
    CheckoutResult :=
  { success := true
    checkout_url := some checkout_url
    session_id := some session_id
    error := none }

/-- src/types.rs `CheckoutResult::failure`. -/
def CheckoutResult.mkFailure (error : String) : CheckoutResult :=
  { success := false
    checkout_url := none
    session_id := none
    error := some error }

/-- src/types.rs `ProductTier` (`price` is an `f64` the SDK never computes
with; modelled as its decimal text). -/
structure ProductTier where
  id : String
  slug : String
  name : String
  description : Option String
  price : String
  currency : String
  billing_period : Option String
  features : List Feature
  deriving DecidableEq, Repr

/-- src/error.rs `LicenseError`.  The `Http`/`Json`/`Io` variants carry the
wrapped error's display text. -/
inductive LicenseError where
  | notInitialized
  | publicKeyRequired
  | productSlugRequired
  | featureRequired (feature_key : String)
  | http (msg : String)
  | json (msg : String)
  | io (msg : String)
  | api (msg : String)
  deriving DecidableEq, Repr

/-- src/config.rs `LicenseOptions`.  `http_timeout` is a `std::time::Duration`
the SDK only hands to the HTTP client; modelled in whole seconds. -/
structure LicenseOptions where
  public_key : String
  product_slug : String
  api_base_url : String
  debug : Bool
  enable_offline_cache : Bool
  cache_validation_minutes : Nat
  offline_grace_days : Nat
  http_timeout_secs : Nat
  deriving DecidableEq, Repr

/-- src/config.rs `impl Default for LicenseOptions`. -/
def LicenseOptions.default : LicenseOptions :=
  { public_key := ""
    product_slug := ""
    api_base_url := "https://api.ironlicensing.com"
    debug := false
    enable_offline_cache := true
    cache_validation_minutes := 60
    offline_grace_days := 7
    http_timeout_secs := 30 }

/-- src/config.rs `LicenseOptions::new`. -/
def LicenseOptions.new (public_key : String) (product_slug : String) :
    LicenseOptions :=
  { LicenseOptions.default with
    public_key := public_key
    product_slug := product_slug }

/-! ## Transport layer (src/transport.rs)

The HTTP client and `serde_json` are external collaborators.  An HTTP exchange
is embedded as an `HttpOutcome`; the parse functions model
`serde_json::from_str` applied to the body text. -/

/-- The outcome of one HTTP send: a transport-level error (connection, timeout,
DNS) carrying its display text, or a response with its `status().is_success()`
flag (2xx) and its body text (`resp.text().unwrap_or_default()`). -/
inductive HttpOutcome where
  | response (is2xx : Bool) (body : String)
  | transportError (msg : String)
  deriving DecidableEq, Repr

/-- src/transport.rs `Transport::post`: the uniform response-handling policy of
`validate`/`activate`/`start_trial`.  `parseLR` models
`serde_json::from_str::<LicenseResult>` on the body; `parseErr` models
`serde_json::from_str::<ErrorResponse>` (the `{error}` shape), `none` meaning
that parse failed. -/
def Transport.post (resp : HttpOutcome)
    (parseLR : String → Except String LicenseResult)
    (parseErr : String → Option String) : LicenseResult :=
  match resp with
  | .response is2xx body =>
      if is2xx then
        match parseLR body with
        | .ok r => r
        | .error e => LicenseResult.failure e
      else
        LicenseResult.failure ((parseErr body).getD "Request failed")
  | .transportError e => LicenseResult.failure e

/-- src/transport.rs `Transport::validate`: builds the request and delegates
the response handling to `post`. -/
def Transport.validate (resp : HttpOutcome)
    (parseLR : String → Except String LicenseResult)
    (parseErr : String → Option String) : LicenseResult :=
  Transport.post resp parseLR parseErr

/-- src/transport.rs `Transport::activate`: builds the request (machine name
defaulting to the hostname, plus platform) and delegates to `post`. -/
def Transport.activate (resp : HttpOutcome)
    (parseLR : String → Except String LicenseResult)
    (parseErr : String → Option String) : LicenseResult :=
  Transport.post resp parseLR parseErr

/-- src/transport.rs `Transport::start_trial`: builds the request and
delegates to `post`. -/
def Transport.start_trial (resp : HttpOutcome)
    (parseLR : String → Except String LicenseResult)
    (parseErr : String → Option String) : LicenseResult :=
  Transport.post resp parseLR parseErr

/-- src/transport.rs `Transport::deactivate`: true iff the send succeeded and
the status is 2xx; the body is ignored. -/
def Transport.deactivate (resp : HttpOutcome) : Bool :=
  match resp with
  | .response is2xx _ => is2xx
  | .transportError _ => false

/-- src/transport.rs `Transport::start_checkout`.  `parseCR` models
`serde_json::from_str::<CheckoutResult>` on the body.  On a parsed 2xx body the
code overwrites `result.success = true` before returning it. -/
def Transport.start_checkout (resp : HttpOutcome)
    (parseCR : String → Except String CheckoutResult)
    (parseErr : String → Option String) : CheckoutResult :=
  match resp with
  | .response is2xx body =>
      if is2xx then
        match parseCR body with
        | .ok r => { r with success := true }
        | .error e => CheckoutResult.mkFailure e
      else
        CheckoutResult.mkFailure ((parseErr body).getD "Checkout failed")
  | .transportError e => CheckoutResult.mkFailure e

/-- Rust `str::trim` (strip leading and trailing whitespace), as applied to
the identity file's contents.  Defined over the character list so that it is
kernel-executable. -/
def rustTrim (s : String) : String :=
  ⟨((s.data.dropWhile Char.isWhitespace).reverse.dropWhile
      Char.isWhitespace).reverse⟩

/-- src/transport.rs `Transport::get_or_create_machine_id`, with the
filesystem explicit.  `fileContents` is `fs::read_to_string(id_path)` as an
`Option` (`none` = unreadable/absent), `freshUuid` is the
`Uuid::new_v4().to_string()` that would be generated on the miss path.
Returns the resolved identity together with the contents written to the
identity file (`none` when no write is attempted; the write itself is
best-effort, its failure ignored by the code). -/
def get_or_create_machine_id (fileContents : Option String)
    (freshUuid : String) : String × Option String :=
  match fileContents with
  | some id => (rustTrim id, none)
  | none => (freshUuid, some freshUuid)

/-! ## Client layer (src/client.rs)

The two `RwLock`-guarded fields of `LicenseClient` are the only mutable state;
`options` and the transport's `machine_id` are fixed at construction. -/

/-- src/client.rs `LicenseClient` (state view).  `machineId` is the transport's
`machine_id` field, resolved once in `Transport::new`. -/
structure LicenseClient where
  options : LicenseOptions
  machineId : String
  current_license : Option License
  license_key : Option String
  deriving DecidableEq, Repr

/-- src/client.rs `LicenseClient::new`, with `Transport::new`'s filesystem
inputs explicit (see `get_or_create_machine_id`).  Validates the two mandatory
credentials before building the transport; no network request is modelled
because none is made — `Transport::new` only configures the HTTP client and
resolves the machine identity from the local filesystem. -/
def LicenseClient.new (options : LicenseOptions)
    (fileContents : Option String) (freshUuid : String) :
    Except LicenseError LicenseClient :=
  if options.public_key = "" then
    .error .publicKeyRequired
  else if options.product_slug = "" then
    .error .productSlugRequired
  else
    .ok { options := options
          machineId := (get_or_create_machine_id fileContents freshUuid).1
          current_license := none
          license_key := none }

/-- src/client.rs `LicenseClient::with_credentials`. -/
def LicenseClient.with_credentials (public_key product_slug : String)
    (fileContents : Option String) (freshUuid : String) :
    Except LicenseError LicenseClient :=
  LicenseClient.new (LicenseOptions.new public_key product_slug)
    fileContents freshUuid

/-- src/client.rs `LicenseClient::validate`, with the transport's result as an
explicit input (the network call happens outside the lock).  Returns the
post-call state together with the `LicenseResult` handed back to the caller. -/
def LicenseClient.validate (c : LicenseClient) (license_key : String)
    (result : LicenseResult) : LicenseClient × LicenseResult :=
  if result.valid then
    match result.license with
    | some license =>
        ({ c with current_license := some license
                  license_key := some license_key }, result)
    | none => (c, result)
  else
    (c, result)

/-- src/client.rs `LicenseClient::activate_with_name` (`machine_name` is only
forwarded to the transport; the store update is identical to `validate`). -/
def LicenseClient.activate_with_name (c : LicenseClient) (license_key : String)
    (machine_name : Option String) (result : LicenseResult) :
    LicenseClient × LicenseResult :=
  let _ := machine_name
  if result.valid then
    match result.license with
    | some license =>
        ({ c with current_license := some license
                  license_key := some license_key }, result)
    | none => (c, result)
  else
    (c, result)

/-- src/client.rs `LicenseClient::activate`. -/
def LicenseClient.activate (c : LicenseClient) (license_key : String)
    (result : LicenseResult) : LicenseClient × LicenseResult :=
  c.activate_with_name license_key none result

/-- src/client.rs `LicenseClient::deactivate`.  `remote` models
`Transport::deactivate` as a function of the license key sent. -/
def LicenseClient.deactivate (c : LicenseClient) (remote : String → Bool) :
    LicenseClient × Bool :=
  match c.license_key with
  | some key =>
      if remote key then
        ({ c with current_license := none, license_key := none }, true)
      else
        (c, false)
  | none => (c, false)

/-- src/client.rs `LicenseClient::start_trial`: on success the stored key is
the `key` field of the returned License (no caller-provided key exists). -/
def LicenseClient.start_trial (c : LicenseClient) (email : String)
    (result : LicenseResult) : LicenseClient × LicenseResult :=
  let _ := email
  if result.valid then
    match result.license with
    | some license =>
        ({ c with current_license := some license
                  license_key := some license.key }, result)
    | none => (c, result)
  else
    (c, result)

/-- src/client.rs `LicenseClient::has_feature`. -/
def LicenseClient.has_feature (c : LicenseClient) (feature_key : String) :
    Bool :=
  match c.current_license with
  | some l => l.has_feature feature_key
  | none => false

/-- src/client.rs `LicenseClient::require_feature`. -/
def LicenseClient.require_feature (c : LicenseClient) (feature_key : String) :
    Except LicenseError Unit :=
  if !c.has_feature feature_key then
    .error (.featureRequired feature_key)
  else
    .ok ()

/-- src/client.rs `LicenseClient::get_feature`. -/
def LicenseClient.get_feature (c : LicenseClient) (feature_key : String) :
    Option Feature :=
  match c.current_license with
  | some l => l.get_feature feature_key
  | none => none

/-- src/client.rs `LicenseClient::license`. -/
def LicenseClient.license (c : LicenseClient) : Option License :=
  c.current_license

/-- src/client.rs `LicenseClient::status`. -/
def LicenseClient.status (c : LicenseClient) : LicenseStatus :=
  match c.current_license with
  | some l => l.status
  | none => .notActivated

/-- src/client.rs `LicenseClient::is_licensed`. -/
def LicenseClient.is_licensed (c : LicenseClient) : Bool :=
  match c.current_license with
  | some l => l.status == .valid || l.status == .trial
  | none => false

/-- src/client.rs `LicenseClient::is_trial`. -/
def LicenseClient.is_trial (c : LicenseClient) : Bool :=
  match c.current_license with
  | some l => l.status == .trial || l.license_type == .trial
  | none => false

/-- src/client.rs `LicenseClient::machine_id`. -/
def LicenseClient.machine_id (c : LicenseClient) : String :=
  c.machineId

/-- src/client.rs `LicenseClient::start_purchase`: pure pass-through to
`Transport::start_checkout` (`tier_id`/`email` only shape the request). -/
def LicenseClient.start_purchase (c : LicenseClient)
    (tier_id email : String) (resp : HttpOutcome)
    (parseCR : String → Except String CheckoutResult)
    (parseErr : String → Option String) : CheckoutResult :=
  let _ := c
  let _ := tier_id
  let _ := email
  Transport.start_checkout resp parseCR parseErr

/-! ## Whole-call operation semantics

One `Op` is one complete state-changing call together with the remote
authority's reply for that call (the reply is data, the network being
external). -/

/-- One state-changing call of the client API with its transport reply. -/
inductive Op where
  | validate (license_key : String) (result : LicenseResult)
  | activate (license_key : String) (machine_name : Option String)
      (result : LicenseResult)
  | deactivate (remote : String → Bool)
  | startTrial (email : String) (result : LicenseResult)

/-- Apply one complete call to the client state. -/
def LicenseClient.step (c : LicenseClient) : Op → LicenseClient
  | .validate key r => (c.validate key r).1
  | .activate key name r => (c.activate_with_name key name r).1
  | .deactivate remote => (c.deactivate remote).1
  | .startTrial email r => (c.start_trial email r).1

/-- Run a sequence of complete calls. -/
def LicenseClient.run (c : LicenseClient) (ops : List Op) : LicenseClient :=
  ops.foldl LicenseClient.step c

/-! ## Micro-step semantics of the store commit

`current_license` and `license_key` sit in two *separate* `RwLock`s; each
assignment `*lock.write() = v` is one atomic action, and nothing ties the two
assignments together.  The commit section of a successful call is therefore a
*list* of atomic writes, and every state between consecutive writes is
observable by a concurrent reader (every query method acquires only one of the
two locks). -/

/-- One atomic `RwLock` write to one of the two store fields. -/
inductive MicroWrite where
  | setLicense (v : Option License)
  | setKey (v : Option String)
  deriving DecidableEq, Repr

/-- Apply one atomic write. -/
def applyMicro (c : LicenseClient) : MicroWrite → LicenseClient
  | .setLicense v => { c with current_license := v }
  | .setKey v => { c with license_key := v }

/-- Apply a sequence of atomic writes. -/
def microRun (c : LicenseClient) (ws : List MicroWrite) : LicenseClient :=
  ws.foldl applyMicro c

/-- The atomic writes performed by the body of `LicenseClient::validate`
(src/client.rs lines 48–53), in program order: first
`*self.current_license.write() = Some(license.clone())`, then
`*self.license_key.write() = Some(license_key.to_string())`. -/
def validateCommitWrites (license_key : String) (result : LicenseResult) :
    List MicroWrite :=
  if result.valid then
    match result.license with
    | some license => [.setLicense (some license), .setKey (some license_key)]
    | none => []
  else
    []

/-! ## Concrete values for witnesses and counterexamples -/

/-- A concrete enabled feature. -/
def exFeature : Feature :=
  { key := "premium"
    name := "Premium"
    enabled := true
    description := none
    metadata := none }

/-- A concrete valid license carrying `exFeature`. -/
def exLicense : License :=
  { id := "lic-1"
    key := "KEY-1"
    status := .valid
    license_type := .perpetual
    email := none
    name := none
    company := none
    features := [exFeature]
    max_activations := 3
    current_activations := 1
    expires_at := none
    created_at := none
    last_validated_at := none
    metadata := none }

/-- A freshly constructed client (store empty). -/
def exClient : LicenseClient :=
  { options := LicenseOptions.new "pk-1" "prod-1"
    machineId := "m-1"
    current_license := none
    license_key := none }

/-- A client currently holding `exLicense` under key "KEY-1". -/
def exLicensedClient : LicenseClient :=
  { exClient with
    current_license := some exLicense
    license_key := some "KEY-1" }

/-! ## Helper lemmas -/

/-- Closed form of the state component of `validate`. -/
theorem validate_fst (c : LicenseClient) (key : String) (r : LicenseResult) :
    (c.validate key r).1 =
      if r.valid = true ∧ r.license.isSome = true then
        { c with current_license := r.license, license_key := some key }
      else c := by
  rcases r with ⟨v, lic, a, e, ch⟩
  cases v <;> cases lic <;> simp [LicenseClient.validate]

/-- `validate` hands the transport's result back unchanged. -/
theorem validate_snd (c : LicenseClient) (key : String) (r : LicenseResult) :
    (c.validate key r).2 = r := by
  rcases r with ⟨v, lic, a, e, ch⟩
  cases v <;> cases lic <;> simp [LicenseClient.validate]

/-- Closed form of the state component of `activate_with_name`. -/
theorem activate_with_name_fst (c : LicenseClient) (key : String)
    (name : Option String) (r : LicenseResult) :
    (c.activate_with_name key name r).1 =
      if r.valid = true ∧ r.license.isSome = true then
        { c with current_license := r.license, license_key := some key }
      else c := by
  rcases r with ⟨v, lic, a, e, ch⟩
  cases v <;> cases lic <;> simp [LicenseClient.activate_with_name]

/-- `activate_with_name` hands the transport's result back unchanged. -/
theorem activate_with_name_snd (c : LicenseClient) (key : String)
    (name : Option String) (r : LicenseResult) :
    (c.activate_with_name key name r).2 = r := by
  rcases r with ⟨v, lic, a, e, ch⟩
  cases v <;> cases lic <;> simp [LicenseClient.activate_with_name]

/-- Closed form of the state component of `start_trial` (the stored key comes
from the returned License). -/
theorem start_trial_fst (c : LicenseClient) (email : String)
    (r : LicenseResult) :
    (c.start_trial email r).1 =
      if r.valid = true ∧ r.license.isSome = true then
        { c with current_license := r.license
                 license_key := r.license.map License.key }
      else c := by
  rcases r with ⟨v, lic, a, e, ch⟩
  cases v <;> cases lic <;> simp [LicenseClient.start_trial]

/-- `start_trial` hands the transport's result back unchanged. -/
theorem start_trial_snd (c : LicenseClient) (email : String)
    (r : LicenseResult) :
    (c.start_trial email r).2 = r := by
  rcases r with ⟨v, lic, a, e, ch⟩
  cases v <;> cases lic <;> simp [LicenseClient.start_trial]

/-- The store-pairing invariant: a License is held iff a key is held. -/
def storePaired (c : LicenseClient) : Prop :=
  c.current_license.isSome = c.license_key.isSome

/-- Every complete call preserves the store pairing. -/
theorem step_storePaired (c : LicenseClient) (op : Op)
    (h : storePaired c) : storePaired (c.step op) := by
  unfold storePaired at h ⊢
  cases op with
  | validate key r =>
      rw [LicenseClient.step, validate_fst]
      split
      · next hc => simp [hc.2]
      · exact h
  | activate key name r =>
      rw [LicenseClient.step, activate_with_name_fst]
      split
      · next hc => simp [hc.2]
      · exact h
  | deactivate remote =>
      rw [LicenseClient.step]
      unfold LicenseClient.deactivate
      cases hk : c.license_key with
      | none => simpa [hk] using h
      | some key =>
          by_cases hr : remote key = true
          · simp [hk, hr]
          · simpa [hk, hr] using h
  | startTrial email r =>
      rw [LicenseClient.step, start_trial_fst]
      split
      · next hc =>
          rcases Option.isSome_iff_exists.mp hc.2 with ⟨l, hl⟩
          simp [hl]
      · exact h

/-- Runs of complete calls preserve the store pairing. -/
theorem run_storePaired (c : LicenseClient) (ops : List Op)
    (h : storePaired c) : storePaired (c.run ops) := by
  induction ops generalizing c with
  | nil => exact h
  | cons op ops ih =>
      show storePaired ((c.step op).run ops)
      exact ih _ (step_storePaired c op h)

/-- No complete call touches the machine identity. -/
theorem step_machineId (c : LicenseClient) (op : Op) :
    (c.step op).machineId = c.machineId := by
  cases op with
  | validate key r =>
      rw [LicenseClient.step, validate_fst]; split <;> rfl
  | activate key name r =>
      rw [LicenseClient.step, activate_with_name_fst]; split <;> rfl
  | deactivate remote =>
      rw [LicenseClient.step]
      unfold LicenseClient.deactivate
      cases hk : c.license_key with
      | none => rfl
      | some key => by_cases hr : remote key = true <;> simp [hr]
  | startTrial email r =>
      rw [LicenseClient.step, start_trial_fst]; split <;> rfl

/-- No run of complete calls touches the machine identity. -/
theorem run_machineId (c : LicenseClient) (ops : List Op) :
    (c.run ops).machineId = c.machineId := by
  induction ops generalizing c with
  | nil => rfl
  | cons op ops ih =>
      show ((c.step op).run ops).machineId = c.machineId
      exact (ih _).trans (step_machineId c op)

/-- A successfully constructed client starts with an empty, paired store. -/
theorem new_ok_store (options : LicenseOptions) (fileContents : Option String)
    (freshUuid : String) (c : LicenseClient)
    (h : LicenseClient.new options fileContents freshUuid = .ok c) :
    c.current_license = none ∧ c.license_key = none := by
  unfold LicenseClient.new at h
  split at h
  · exact absurd h (by simp)
  · split at h
    · exact absurd h (by simp)
    · injection h with h
      subst h
      exact ⟨rfl, rfl⟩

/-! ## Claim theorems -/

/-- C1, counterexample.  The claim asserts that no reader can ever observe the
license set with the key absent.  But `current_license` and `license_key` live
in two separate `RwLock`s, and the commit section of a successful `validate`
(src/client.rs lines 48–53) performs two independent atomic writes, license
first.  The state after the first write — observable by a concurrent reader,
since every reader takes only one of the two locks — has the license set and
the key still absent. -/
theorem claim1_pair_atomicity_counterexample :
    validateCommitWrites "KEY-1" (LicenseResult.success exLicense) =
      [.setLicense (some exLicense), .setKey (some "KEY-1")]
    ∧ (microRun exClient
        ((validateCommitWrites "KEY-1"
          (LicenseResult.success exLicense)).take 1)).current_license.isSome
        = true
    ∧ (microRun exClient
        ((validateCommitWrites "KEY-1"
          (LicenseResult.success exLicense)).take 1)).license_key.isSome
        = false :=
  ⟨rfl, rfl, rfl⟩

/-- C1 (amended): at whole-call granularity the pairing invariant does hold —
after every sequence of complete validate/activate/deactivate/start_trial
calls on a freshly constructed client, a License is held iff a license key is
held.  (The original claim's "as observed by any reader, mid-call included"
strengthening fails, see the counterexample.) -/
theorem claim1_store_pair_invariant_amended (options : LicenseOptions)
    (fileContents : Option String) (freshUuid : String) (c : LicenseClient)
    (ops : List Op)
    (h : LicenseClient.new options fileContents freshUuid = .ok c) :
    (c.run ops).current_license.isSome = (c.run ops).license_key.isSome := by
  have h0 := new_ok_store options fileContents freshUuid c h
  exact run_storePaired c ops (by unfold storePaired; rw [h0.1, h0.2]; rfl)

/-- C1 amended, witness: a concrete construction followed by a successful
validate and a failed deactivate keeps the store paired. -/
theorem claim1_store_pair_invariant_amended_witness :
    ((({ options := LicenseOptions.new "pk-1" "prod-1"
         machineId := "m-1"
         current_license := none
         license_key := none } : LicenseClient).run
        [.validate "KEY-1" (LicenseResult.success exLicense),
         .deactivate (fun _ => false)]).current_license.isSome =
      (({ options := LicenseOptions.new "pk-1" "prod-1"
          machineId := "m-1"
          current_license := none
          license_key := none } : LicenseClient).run
        [.validate "KEY-1" (LicenseResult.success exLicense),
         .deactivate (fun _ => false)]).license_key.isSome) :=
  claim1_store_pair_invariant_amended (LicenseOptions.new "pk-1" "prod-1")
    none "m-1" _ _ rfl

/-- C2: for validate, activate (with or without machine name) and start_trial,
the store is overwritten exactly when the transport result has `valid = true`
and carries a License payload (otherwise it is left unchanged — in particular
on `valid = true` without a payload and on every failure); validate/activate
store the caller-provided key, start_trial stores the returned License's own
key; and in every case the transport's result is handed back unchanged. -/
theorem claim2_store_update_iff (c : LicenseClient) (key email : String)
    (name : Option String) (r : LicenseResult) :
    ((c.validate key r).1 =
        if r.valid = true ∧ r.license.isSome = true then
          { c with current_license := r.license, license_key := some key }
        else c)
    ∧ (c.validate key r).2 = r
    ∧ ((c.activate key r).1 =
        if r.valid = true ∧ r.license.isSome = true then
          { c with current_license := r.license, license_key := some key }
        else c)
    ∧ ((c.activate_with_name key name r).1 =
        if r.valid = true ∧ r.license.isSome = true then
          { c with current_license := r.license, license_key := some key }
        else c)
    ∧ (c.activate_with_name key name r).2 = r
    ∧ ((c.start_trial email r).1 =
        if r.valid = true ∧ r.license.isSome = true then
          { c with current_license := r.license
                   license_key := r.license.map License.key }
        else c)
    ∧ (c.start_trial email r).2 = r :=
  ⟨validate_fst c key r, validate_snd c key r,
   activate_with_name_fst c key none r,
   activate_with_name_fst c key name r, activate_with_name_snd c key name r,
   start_trial_fst c email r, start_trial_snd c email r⟩

/-- C3: `has_feature k` is true exactly when a License is held and its feature
list contains a feature with key `k` and `enabled = true`; in particular it is
false whenever `license()` is absent. -/
theorem claim3_has_feature_spec (c : LicenseClient) (k : String) :
    c.has_feature k = true ↔
      ∃ l, c.license = some l ∧ ∃ f ∈ l.features, f.key = k ∧ f.enabled = true := by
  cases hl : c.current_license with
  | none => simp [LicenseClient.has_feature, LicenseClient.license, hl]
  | some l =>
      simp [LicenseClient.has_feature, LicenseClient.license, hl,
        License.has_feature, List.any_eq_true, Bool.and_eq_true, beq_iff_eq]

/-- C4: `deactivate` returns true exactly when a key is held and the remote
deactivation of that stored key succeeds; then both store fields are cleared
(`license()` absent, `status()` NotActivated); on a false return the prior
state is unchanged. -/
theorem claim4_deactivate_spec (c : LicenseClient) (remote : String → Bool) :
    ((c.deactivate remote).2 = true ↔
        ∃ k, c.license_key = some k ∧ remote k = true)
    ∧ ((c.deactivate remote).2 = true →
        (c.deactivate remote).1.license = none
        ∧ (c.deactivate remote).1.license_key = none
        ∧ (c.deactivate remote).1.status = .notActivated)
    ∧ ((c.deactivate remote).2 = false → (c.deactivate remote).1 = c) := by
  unfold LicenseClient.deactivate
  cases hk : c.license_key with
  | none => simp
  | some key =>
      by_cases hr : remote key = true
      · simp [hk, hr, LicenseClient.license, LicenseClient.status]
      · simp [hk, hr]

/-- C4, witness: on a client holding "KEY-1", with a remote that accepts, the
theorem's success branch clears the store. -/
theorem claim4_deactivate_spec_witness :
    (exLicensedClient.deactivate (fun _ => true)).1.license = none
    ∧ (exLicensedClient.deactivate (fun _ => true)).1.license_key = none
    ∧ (exLicensedClient.deactivate (fun _ => true)).1.status = .notActivated :=
  (claim4_deactivate_spec exLicensedClient (fun _ => true)).2.1 rfl

/-- C5: `status()` is the held License's status, or NotActivated when none is
held; after a successful validate/activate/start_trial (valid result carrying
License `l`), `status()` equals `l.status` and `is_licensed()` is true iff
that status is Valid or Trial. -/
theorem claim5_status_spec (c : LicenseClient) (key email : String)
    (name : Option String) (r : LicenseResult) (l : License) :
    (c.current_license = none → c.status = .notActivated)
    ∧ (c.current_license = some l → c.status = l.status)
    ∧ (r.valid = true → r.license = some l →
        (c.validate key r).1.status = l.status
        ∧ ((c.validate key r).1.is_licensed = true ↔
            l.status = .valid ∨ l.status = .trial)
        ∧ (c.activate_with_name key name r).1.status = l.status
        ∧ ((c.activate_with_name key name r).1.is_licensed = true ↔
            l.status = .valid ∨ l.status = .trial)
        ∧ (c.start_trial email r).1.status = l.status
        ∧ ((c.start_trial email r).1.is_licensed = true ↔
            l.status = .valid ∨ l.status = .trial)) := by
  refine ⟨fun h => ?_, fun h => ?_, fun hv hl => ?_⟩
  · simp [LicenseClient.status, h]
  · simp [LicenseClient.status, h]
  · rw [validate_fst, activate_with_name_fst, start_trial_fst]
    simp [hv, hl, LicenseClient.status, LicenseClient.is_licensed,
      Bool.or_eq_true, beq_iff_eq]

/-- C5, witness: instantiated on a fresh client and a successful validate
returning `exLicense` (status Valid). -/
theorem claim5_status_spec_witness :
    (exClient.validate "KEY-1" (LicenseResult.success exLicense)).1.status =
        exLicense.status
    ∧ ((exClient.validate "KEY-1"
          (LicenseResult.success exLicense)).1.is_licensed = true ↔
        exLicense.status = .valid ∨ exLicense.status = .trial)
    ∧ (exClient.activate_with_name "KEY-1" none
          (LicenseResult.success exLicense)).1.status = exLicense.status
    ∧ ((exClient.activate_with_name "KEY-1" none
          (LicenseResult.success exLicense)).1.is_licensed = true ↔
        exLicense.status = .valid ∨ exLicense.status = .trial)
    ∧ (exClient.start_trial "user-at-example"
          (LicenseResult.success exLicense)).1.status = exLicense.status
    ∧ ((exClient.start_trial "user-at-example"
          (LicenseResult.success exLicense)).1.is_licensed = true ↔
        exLicense.status = .valid ∨ exLicense.status = .trial) :=
  (claim5_status_spec exClient "KEY-1" "user-at-example" none
    (LicenseResult.success exLicense) exLicense).2.2 rfl rfl

/-- A parse function modelling `serde_json::from_str::<LicenseResult>` on a
2xx body that itself says `cached: true` (the field is `serde(default)`, so it
is honored when present). -/
def cachedTrueParse : String → Except String LicenseResult :=
  fun _ =>
    .ok { valid := true
          license := some exLicense
          activations := none
          error := none
          cached := true }

/-- A parse function modelling `serde_json::from_str::<ErrorResponse>`
failing on every body. -/
def noErrParse : String → Option String :=
  fun _ => none

/-- A parse function whose results always carry `cached = false` (as with any
body that omits the `cached` field, which then takes serde's default). -/
def benignParse : String → Except String LicenseResult :=
  fun body => .ok (LicenseResult.failure body)

/-- C6, counterexample.  `Transport::post` returns the deserialized 2xx body
as-is, and `cached` is an ordinary `serde(default)` field, so a server body
carrying `cached: true` reaches the caller with `cached = true`; the claim
that every result returned by validate/activate/start_trial has `cached =
false` therefore fails. -/
theorem claim6_cached_flag_counterexample :
    ((exClient.validate "KEY-1"
        (Transport.validate (.response true "body saying cached true")
          cachedTrueParse noErrParse)).2).cached = true :=
  rfl

/-- C6 (amended): every result synthesized by the transport itself (transport
error, non-2xx, 2xx parse failure) has `cached = false`, and whenever the
parsed 2xx body has `cached = false` — in particular whenever the body omits
the field, serde's default — the result returned by validate/activate/
start_trial has `cached = false`.  (Only a 2xx body explicitly carrying
`cached: true` can make it true, see the counterexample.) -/
theorem claim6_cached_flag_amended (resp : HttpOutcome)
    (parseLR : String → Except String LicenseResult)
    (parseErr : String → Option String)
    (h : ∀ body r, parseLR body = .ok r → r.cached = false) :
    (Transport.validate resp parseLR parseErr).cached = false
    ∧ (Transport.activate resp parseLR parseErr).cached = false
    ∧ (Transport.start_trial resp parseLR parseErr).cached = false := by
  have hp : (Transport.post resp parseLR parseErr).cached = false := by
    unfold Transport.post
    cases resp with
    | response is2xx body =>
        cases is2xx with
        | true =>
            cases hb : parseLR body with
            | ok r => simpa [hb] using h body r hb
            | error e => simp [hb, LicenseResult.failure]
        | false => rfl
    | transportError e => rfl
  exact ⟨hp, hp, hp⟩

/-- C6 amended, witness: with a parse whose results never carry
`cached = true`, all three operations return `cached = false`. -/
theorem claim6_cached_flag_amended_witness :
    (Transport.validate (.response true "b") benignParse noErrParse).cached =
        false
    ∧ (Transport.activate (.response true "b") benignParse
        noErrParse).cached = false
    ∧ (Transport.start_trial (.response true "b") benignParse
        noErrParse).cached = false :=
  claim6_cached_flag_amended (.response true "b") benignParse noErrParse
    (fun body r h => by injection h with h; subst h; rfl)

/-- C7: construction fails with the configuration error for a missing public
key, then for a missing product slug, and never otherwise; on success the
client holds the given options, the locally resolved machine identity, and an
empty store.  No network input appears in `LicenseClient.new` because
construction performs no network call (`Transport::new` only configures the
HTTP client and reads/writes the local identity file). -/
theorem claim7_construction_spec (options : LicenseOptions)
    (fileContents : Option String) (freshUuid : String) :
    (options.public_key = "" →
        LicenseClient.new options fileContents freshUuid =
          .error .publicKeyRequired)
    ∧ (options.public_key ≠ "" → options.product_slug = "" →
        LicenseClient.new options fileContents freshUuid =
          .error .productSlugRequired)
    ∧ (options.public_key ≠ "" → options.product_slug ≠ "" →
        LicenseClient.new options fileContents freshUuid =
          .ok { options := options
                machineId := (get_or_create_machine_id fileContents freshUuid).1
                current_license := none
                license_key := none }) := by
  refine ⟨fun h => ?_, fun h1 h2 => ?_, fun h1 h2 => ?_⟩
  · simp [LicenseClient.new, h]
  · simp [LicenseClient.new, h1, h2]
  · simp [LicenseClient.new, h1, h2]

/-- C7, witness: both credentials non-empty, construction succeeds with an
empty store. -/
theorem claim7_construction_spec_witness :
    LicenseClient.new (LicenseOptions.new "pk-1" "prod-1") none "m-1" =
      .ok { options := LicenseOptions.new "pk-1" "prod-1"
            machineId := (get_or_create_machine_id none "m-1").1
            current_license := none
            license_key := none } :=
  (claim7_construction_spec (LicenseOptions.new "pk-1" "prod-1") none
    "m-1").2.2 (by decide) (by decide)

/-- C8: `require_feature k` fails with `FeatureRequired k` exactly when
`has_feature k` is false, and returns unit exactly when it is true. -/
theorem claim8_require_feature_spec (c : LicenseClient) (k : String) :
    (c.require_feature k = .error (.featureRequired k) ↔
        c.has_feature k = false)
    ∧ (c.require_feature k = .ok () ↔ c.has_feature k = true) := by
  cases h : c.has_feature k <;> simp [LicenseClient.require_feature, h]

/-- C9: the machine identity is unchanged by any run of client calls (so
repeated `machine_id()` calls in one process agree); when the identity file is
readable its trimmed contents are the resolved identity; and a first process
that found no file writes its fresh UUID, which a later process reading that
file resolves to the same identity whenever the UUID has no surrounding
whitespace (UUID text is hex digits and hyphens). -/
theorem claim9_machine_identity_spec (c : LicenseClient) (ops : List Op)
    (contents freshUuid otherUuid : String) :
    (c.run ops).machine_id = c.machine_id
    ∧ (get_or_create_machine_id (some contents) freshUuid).1 =
        rustTrim contents
    ∧ (rustTrim freshUuid = freshUuid →
        (get_or_create_machine_id none freshUuid).2 = some freshUuid
        ∧ (get_or_create_machine_id (some freshUuid) otherUuid).1 =
            (get_or_create_machine_id none freshUuid).1) := by
  refine ⟨?_, rfl, fun ht => ⟨rfl, ?_⟩⟩
  · show (c.run ops).machineId = c.machineId
    exact run_machineId c ops
  · show rustTrim freshUuid = freshUuid
    exact ht

/-- C9, witness: concrete write-then-read round-trip on a UUID string. -/
theorem claim9_machine_identity_spec_witness :
    (get_or_create_machine_id none
        "3f2b8c1a-9d4e-4f6b-8a2c-0e1d2c3b4a59").2 =
        some "3f2b8c1a-9d4e-4f6b-8a2c-0e1d2c3b4a59"
    ∧ (get_or_create_machine_id
        (some "3f2b8c1a-9d4e-4f6b-8a2c-0e1d2c3b4a59") "other-uuid").1 =
        (get_or_create_machine_id none
          "3f2b8c1a-9d4e-4f6b-8a2c-0e1d2c3b4a59").1 :=
  (claim9_machine_identity_spec exClient [] "c"
    "3f2b8c1a-9d4e-4f6b-8a2c-0e1d2c3b4a59" "other-uuid").2.2 (by decide)

/-- A parse function modelling a 2xx checkout body that itself says
`success: false`. -/
def checkoutBodyParse : String → Except String CheckoutResult :=
  fun _ => .ok (CheckoutResult.mkFailure "declined-by-body")

/-- C10: on a 2xx response whose body parses, `start_purchase` returns the
parsed result with `success` forced to true regardless of the body's own
`success` value; on a non-2xx response or transport error it returns a
failure with `success = false` and an error message present. -/
theorem claim10_checkout_success_override (c : LicenseClient)
    (tier_id email : String) (resp : HttpOutcome)
    (parseCR : String → Except String CheckoutResult)
    (parseErr : String → Option String) :
    (∀ body r, resp = .response true body → parseCR body = .ok r →
        c.start_purchase tier_id email resp parseCR parseErr =
          { r with success := true })
    ∧ (∀ body, resp = .response false body →
        (c.start_purchase tier_id email resp parseCR parseErr).success = false
        ∧ (c.start_purchase tier_id email resp parseCR
            parseErr).error.isSome = true)
    ∧ (∀ e, resp = .transportError e →
        c.start_purchase tier_id email resp parseCR parseErr =
          CheckoutResult.mkFailure e
        ∧ (CheckoutResult.mkFailure e).success = false
        ∧ (CheckoutResult.mkFailure e).error.isSome = true) := by
  refine ⟨fun body r hresp hok => ?_, fun body hresp => ?_,
    fun e hresp => ?_⟩ <;> subst hresp
  · simp [LicenseClient.start_purchase, Transport.start_checkout, hok]
  · simp [LicenseClient.start_purchase, Transport.start_checkout,
      CheckoutResult.mkFailure]
  · simp [LicenseClient.start_purchase, Transport.start_checkout,
      CheckoutResult.mkFailure]

/-- C10, witness: a parsed 2xx body that itself says `success: false` is
returned with `success` forced to true. -/
theorem claim10_checkout_success_override_witness :
    exClient.start_purchase "tier-1" "user-at-example" (.response true "b")
        checkoutBodyParse noErrParse =
      { CheckoutResult.mkFailure "declined-by-body" with success := true } :=
  (claim10_checkout_success_override exClient "tier-1" "user-at-example"
    (.response true "b") checkoutBodyParse noErrParse).1 "b"
    (CheckoutResult.mkFailure "declined-by-body") rfl rfl

end IronLicensing
